import Mathlib

/-!
Shallow embedding of the `emailnator-rs` client (src/lib.rs, src/header.rs).

Modelling conventions:
* Rust byte strings (`&[u8]`, and `String` viewed as UTF-8 bytes) are `List Nat`
  at the cookie/bootstrap layer, where the byte-level behaviour of
  `HeaderValue::to_str` and `urlencoding::decode` matters.
* JSON documents are a `Json` AST; `sonic_rs::from_slice::<T>` is modelled as a
  decoder `Json → Option T` following serde derive semantics (unknown fields
  ignored, duplicate or missing or ill-typed fields rejected), with an
  unparseable body represented as `none`.
* The HTTP transport is a collaborator: each operation takes the response the
  transport produced and returns its result together with a trace of the
  effects it performed (request sent, body read), mirroring the order of the
  statements in the source.
-/

set_option autoImplicit false

/-- The error enum of src/lib.rs lines 36-48. `Request` and `Parse` wrap
library errors whose payloads are irrelevant here. -/
inductive Error where
  | request
  | parse
  | rateLimited
  | noEmailKinds
  | zeroCount
  deriving DecidableEq, Repr

/-- `EmailKind` of src/lib.rs lines 50-57. -/
inductive EmailKind where
  | Domain
  | PlusGmail
  | DotGmail
  | GoogleMail
  deriving DecidableEq, Repr

/-- The serde `rename_all = "camelCase"` label of each `EmailKind` variant. -/
def EmailKind.label : EmailKind → String
  | .Domain => "domain"
  | .PlusGmail => "plusGmail"
  | .DotGmail => "dotGmail"
  | .GoogleMail => "googleMail"

/-- `MailHeader` of src/lib.rs lines 65-71: field `id` is serialized as
`messageID`; `from` and `subject` keep their names. -/
structure MailHeader where
  id : String
  «from» : String
  subject : String
  deriving DecidableEq, Repr

/-- `Inbox` of src/lib.rs lines 59-63: field `message` is serialized as
`messageData`. -/
structure Inbox where
  message : List MailHeader
  deriving DecidableEq, Repr

/-- A JSON document, the unit the operations exchange with the transport. -/
inductive Json where
  | null
  | bool (b : Bool)
  | num (n : Nat)
  | str (s : String)
  | arr (elems : List Json)
  | obj (fields : List (String × Json))

/-- Decode a JSON array's elements as `Vec<String>`. -/
def decodeStringList : List Json → Option (List String)
  | [] => some []
  | .str s :: rest => (decodeStringList rest).map (s :: ·)
  | _ => none

/-- serde field loop for `GeneratedEmails { email: Vec<String> }`
(src/lib.rs lines 132-135): unknown fields skipped, `email` required once. -/
def generatedEmailsFields : List (String × Json) → Option (List String) → Option (List String)
  | [], some v => some v
  | [], none => none
  | (k, v) :: rest, acc =>
    if k = "email" then
      match acc, v with
      | none, .arr xs =>
        match decodeStringList xs with
        | some ss => generatedEmailsFields rest (some ss)
        | none => none
      | _, _ => none
    else generatedEmailsFields rest acc

/-- `sonic_rs::from_slice::<GeneratedEmails>` applied to a JSON document. -/
def decodeGeneratedEmails : Json → Option (List String)
  | .obj fields => generatedEmailsFields fields none
  | _ => none

/-- serde field loop for `MailHeader` (src/lib.rs lines 65-71): requires the
string fields `messageID`, `from`, `subject`, each exactly once. -/
def mailHeaderFields : List (String × Json) → Option String → Option String → Option String →
    Option MailHeader
  | [], some i, some f, some s => some ⟨i, f, s⟩
  | [], _, _, _ => none
  | (k, v) :: rest, i, f, s =>
    if k = "messageID" then
      match i, v with
      | none, .str sv => mailHeaderFields rest (some sv) f s
      | _, _ => none
    else if k = "from" then
      match f, v with
      | none, .str sv => mailHeaderFields rest i (some sv) s
      | _, _ => none
    else if k = "subject" then
      match s, v with
      | none, .str sv => mailHeaderFields rest i f (some sv)
      | _, _ => none
    else mailHeaderFields rest i f s

/-- Decode one `MailHeader` from a JSON document. -/
def decodeMailHeader : Json → Option MailHeader
  | .obj fields => mailHeaderFields fields none none none
  | _ => none

/-- Decode a JSON array's elements as `Vec<MailHeader>`. -/
def decodeMailHeaderList : List Json → Option (List MailHeader)
  | [] => some []
  | j :: rest =>
    match decodeMailHeader j, decodeMailHeaderList rest with
    | some h, some hs => some (h :: hs)
    | _, _ => none

/-- serde field loop for `Inbox` (src/lib.rs lines 59-63): requires the field
`messageData`, an array of `MailHeader`, exactly once. -/
def inboxFields : List (String × Json) → Option (List MailHeader) → Option (List MailHeader)
  | [], some v => some v
  | [], none => none
  | (k, v) :: rest, acc =>
    if k = "messageData" then
      match acc, v with
      | none, .arr xs =>
        match decodeMailHeaderList xs with
        | some hs => inboxFields rest (some hs)
        | none => none
      | _, _ => none
    else inboxFields rest acc

/-- `sonic_rs::from_slice::<Inbox>` applied to a JSON document. -/
def decodeInbox : Json → Option Inbox
  | .obj fields => (inboxFields fields none).map Inbox.mk
  | _ => none

/-- The JSON document the remote service uses for one inbox entry: an object
with the string fields `messageID`, `from` and `subject`. -/
def mkMailHeaderJson (e : MailHeader) : Json :=
  Json.obj [("messageID", Json.str e.id), ("from", Json.str e.«from»),
    ("subject", Json.str e.subject)]

/-- The serialized `GetEmail` payload of create_emails (src/lib.rs lines
125-130, 137-140): `{ "email": kinds, "emailNo": count }`. -/
def getEmailPayload (kinds : List EmailKind) (count : Nat) : Json :=
  .obj [("email", .arr (kinds.map (fun k => .str k.label))), ("emailNo", .num count)]

/-- The serialized `GetInbox` payload of fetch_inbox (src/lib.rs lines
167-172): `{ "email": email }`. -/
def getInboxPayload (email : String) : Json :=
  .obj [("email", .str email)]

/-- The serialized `GetMessage` payload of read_message (src/lib.rs lines
200-207): `{ "email": email, "messageID": id }`. -/
def getMessagePayload (email : String) (id : String) : Json :=
  .obj [("email", .str email), ("messageID", .str id)]

/-- An HTTP response as delivered by the transport collaborator: the status
code and the body (`Option Json` for the JSON operations, with `none` for a
body that does not parse; `String` for the raw-text operation). -/
structure HttpResponse (β : Type) where
  status : Nat
  body : β

/-- Observable transport effects of one operation, in program order. -/
inductive Event where
  | sent (payload : Json)
  | readBody

/-- `Emailnator` of src/lib.rs lines 73-76; the `http` client handle is the
transport collaborator and carries no state relevant here, so only the `xsrf`
token (a Rust `String`, i.e. UTF-8 bytes) is kept. -/
structure Emailnator where
  xsrf : List Nat
  deriving DecidableEq, Repr

/-- `XSRF_COOKIE_SEPARATOR = ';'` (src/header.rs line 6). -/
def XSRF_COOKIE_SEPARATOR : Nat := 59

/-- Whether a byte is visible ASCII in the sense of the http crate
(`HeaderValue::to_str` accepts bytes 32..=126 and tab). -/
def isVisibleAsciiByte (b : Nat) : Bool :=
  decide ((32 ≤ b ∧ b < 127) ∨ b = 9)

/-- `HeaderValue::to_str` (called at src/lib.rs line 99): succeeds, with the
same bytes, exactly when every byte is visible ASCII. -/
def header_to_str (bs : List Nat) : Option (List Nat) :=
  if bs.all isVisibleAsciiByte then some bs else none

/-- `str::strip_prefix` (src/lib.rs line 101) on byte strings. -/
def stripStart (pre bs : List Nat) : Option (List Nat) :=
  if pre.isPrefixOf bs then some (bs.drop pre.length) else none

/-- `from_hex_digit` of the urlencoding crate. -/
def from_hex_digit (digit : Nat) : Option Nat :=
  if 48 ≤ digit ∧ digit ≤ 57 then some (digit - 48)
  else if 65 ≤ digit ∧ digit ≤ 70 then some (digit - 65 + 10)
  else if 97 ≤ digit ∧ digit ≤ 102 then some (digit - 97 + 10)
  else none

/-- `urlencoding::decode_binary`: replaces each `%` followed by two hex digits
(byte 37) by the encoded byte; a `%` not starting a valid escape is copied
literally and scanning resumes right after the last consumed byte. -/
def decode_binary : List Nat → List Nat
  | [] => []
  | 37 :: a :: b :: rest =>
    match from_hex_digit a, from_hex_digit b with
    | some hi, some lo => (16 * hi + lo) :: decode_binary rest
    | some _, none => 37 :: a :: decode_binary (b :: rest)
    | none, _ => 37 :: decode_binary (a :: b :: rest)
  | 37 :: rest => 37 :: rest
  | c :: rest => c :: decode_binary rest

/-- Whether a byte is a UTF-8 continuation byte (0x80..=0xBF). -/
def isUtf8Cont (b : Nat) : Bool :=
  decide (128 ≤ b ∧ b ≤ 191)

/-- Strict UTF-8 validity of a byte string, as checked by Rust's
`String::from_utf8` (rejects overlong forms, surrogates, values above
U+10FFFF). -/
def utf8Valid : List Nat → Bool
  | [] => true
  | b :: rest =>
    if b < 128 then utf8Valid rest
    else if 194 ≤ b ∧ b ≤ 223 then
      match rest with
      | b1 :: rest1 => isUtf8Cont b1 && utf8Valid rest1
      | [] => false
    else if b = 224 then
      match rest with
      | b1 :: b2 :: rest2 => decide (160 ≤ b1 ∧ b1 ≤ 191) && isUtf8Cont b2 && utf8Valid rest2
      | _ => false
    else if (225 ≤ b ∧ b ≤ 236) ∨ (238 ≤ b ∧ b ≤ 239) then
      match rest with
      | b1 :: b2 :: rest2 => isUtf8Cont b1 && isUtf8Cont b2 && utf8Valid rest2
      | _ => false
    else if b = 237 then
      match rest with
      | b1 :: b2 :: rest2 => decide (128 ≤ b1 ∧ b1 ≤ 159) && isUtf8Cont b2 && utf8Valid rest2
      | _ => false
    else if b = 240 then
      match rest with
      | b1 :: b2 :: b3 :: rest3 =>
        decide (144 ≤ b1 ∧ b1 ≤ 191) && isUtf8Cont b2 && isUtf8Cont b3 && utf8Valid rest3
      | _ => false
    else if 241 ≤ b ∧ b ≤ 243 then
      match rest with
      | b1 :: b2 :: b3 :: rest3 =>
        isUtf8Cont b1 && isUtf8Cont b2 && isUtf8Cont b3 && utf8Valid rest3
      | _ => false
    else if b = 244 then
      match rest with
      | b1 :: b2 :: b3 :: rest3 =>
        decide (128 ≤ b1 ∧ b1 ≤ 143) && isUtf8Cont b2 && isUtf8Cont b3 && utf8Valid rest3
      | _ => false
    else false

namespace urlencoding

/-- `urlencoding::decode` (src/lib.rs line 97): `decode_binary` on the bytes,
then `String::from_utf8`, failing when the decoded bytes are not UTF-8. -/
def decode (bs : List Nat) : Option (List Nat) :=
  let d := decode_binary bs
  if utf8Valid d then some d else none

end urlencoding

/-- Whether the first two bytes form a valid two-hex-digit escape body. -/
def escapeHead : List Nat → Bool
  | a :: c :: _ => (from_hex_digit a).isSome && (from_hex_digit c).isSome
  | _ => false

/-- Whether a byte string contains a percent escape, i.e. a byte 37 (`%`)
followed by two hex digits. -/
def hasEscape : List Nat → Bool
  | [] => false
  | b :: rest => (b == 37 && escapeHead rest) || hasEscape rest

/-- Bytes of an ASCII string literal (each char is one byte). -/
def asciiBytes (s : String) : List Nat :=
  s.data.map Char.toNat

/-- `XSRF_COOKIE_PREFIX = "XSRF-TOKEN="` (src/header.rs line 5), as bytes. -/
def XSRF_COOKIE_START : List Nat :=
  asciiBytes "XSRF-TOKEN="

/-- The `find_map` closure of `Emailnator::new` (src/lib.rs lines 96-107):
`to_str().ok()?`, then `strip_prefix(XSRF_COOKIE_PREFIX)?`, then
`split(';').next()?` (the first segment, never absent), then
`urlencoding::decode(..).ok()`. -/
def xsrfFromCookie (cookie : List Nat) : Option (List Nat) :=
  (header_to_str cookie).bind fun s =>
    (stripStart XSRF_COOKIE_START s).bind fun r =>
      urlencoding.decode (r.takeWhile (fun b => b ≠ XSRF_COOKIE_SEPARATOR))

/-- `Emailnator::new` (src/lib.rs lines 79-111), as a function of the
Set-Cookie header values of the homepage response: the first cookie the
closure accepts provides the session token, otherwise `Error::RateLimited`. -/
def Emailnator.new (setCookieHeaders : List (List Nat)) : Except Error Emailnator :=
  match setCookieHeaders.findSome? xsrfFromCookie with
  | some tok => .ok ⟨tok⟩
  | none => .error .rateLimited

/-- `Emailnator::create_emails` (src/lib.rs lines 113-161), as a function of
its inputs and of the response the transport returns; the second component
records the transport effects in program order. `count` is the value of the
`u32` argument. -/
def Emailnator.create_emails (kinds : List EmailKind) (count : Nat)
    (resp : HttpResponse (Option Json)) :
    Except Error (List String) × List Event :=
  if kinds.isEmpty then (.error .noEmailKinds, [])
  else if count = 0 then (.error .zeroCount, [])
  else
    let payload := getEmailPayload kinds count
    if resp.status = 429 then (.error .rateLimited, [.sent payload])
    else
      match resp.body.bind decodeGeneratedEmails with
      | some emails => (.ok emails, [.sent payload, .readBody])
      | none => (.error .parse, [.sent payload, .readBody])

/-- `Emailnator::fetch_inbox` (src/lib.rs lines 163-193). -/
def Emailnator.fetch_inbox (email : String) (resp : HttpResponse (Option Json)) :
    Except Error Inbox × List Event :=
  let payload := getInboxPayload email
  if resp.status = 429 then (.error .rateLimited, [.sent payload])
  else
    match resp.body.bind decodeInbox with
    | some inbox => (.ok inbox, [.sent payload, .readBody])
    | none => (.error .parse, [.sent payload, .readBody])

/-- `Emailnator::read_message` (src/lib.rs lines 195-226): the body is read
with `.text()` and returned as is, with no JSON parsing. -/
def Emailnator.read_message (email : String) (id : String) (resp : HttpResponse String) :
    Except Error String × List Event :=
  let payload := getMessagePayload email id
  if resp.status = 429 then (.error .rateLimited, [.sent payload])
  else (.ok resp.body, [.sent payload, .readBody])

/-- A Set-Cookie value that satisfies C1's matching conditions (prefix plus
decodable first segment) but contains the non-visible-ASCII byte 128 after the
first `;`, so `to_str` fails on it and `Emailnator::new` skips it. -/
def c1BadHeader : List Nat :=
  XSRF_COOKIE_START ++ [97, 59, 128]

/-! ## Helper lemmas -/

theorem decodeStringList_map_str (l : List String) :
    decodeStringList (l.map Json.str) = some l := by
  induction l with
  | nil => rfl
  | cons s rest ih => simp [decodeStringList, ih]

theorem decodeGeneratedEmails_obj (l : List String) :
    decodeGeneratedEmails (Json.obj [("email", Json.arr (l.map Json.str))]) = some l := by
  simp [decodeGeneratedEmails, generatedEmailsFields, decodeStringList_map_str]

theorem decodeMailHeader_mk (e : MailHeader) :
    decodeMailHeader (mkMailHeaderJson e) = some e := rfl

theorem decodeMailHeaderList_map (l : List MailHeader) :
    decodeMailHeaderList (l.map mkMailHeaderJson) = some l := by
  induction l with
  | nil => rfl
  | cons e rest ih => simp [decodeMailHeaderList, decodeMailHeader_mk, ih]

theorem decodeInbox_obj (l : List MailHeader) :
    decodeInbox (Json.obj [("messageData", Json.arr (l.map mkMailHeaderJson))]) = some ⟨l⟩ := by
  simp [decodeInbox, inboxFields, decodeMailHeaderList_map]

theorem decode_eq {bs t : List Nat} (h : urlencoding.decode bs = some t) :
    decode_binary bs = t ∧ utf8Valid t = true := by
  simp only [urlencoding.decode] at h
  split at h
  · cases h
    exact ⟨rfl, by assumption⟩
  · cases h

theorem xsrfFromCookie_eq_some_iff (v tok : List Nat) :
    xsrfFromCookie v = some tok ↔
      header_to_str v = some v ∧
      ∃ r, stripStart XSRF_COOKIE_START v = some r ∧
        urlencoding.decode (r.takeWhile (fun b => b ≠ XSRF_COOKIE_SEPARATOR)) = some tok := by
  by_cases hall : v.all isVisibleAsciiByte = true
  · by_cases hp : XSRF_COOKIE_START <+: v
    · simp [xsrfFromCookie, header_to_str, stripStart, hall, hp]
    · simp [xsrfFromCookie, header_to_str, stripStart, hall, hp]
  · simp [xsrfFromCookie, header_to_str, stripStart, hall]

theorem utf8Valid_of_xsrfFromCookie {v tok : List Nat} (h : xsrfFromCookie v = some tok) :
    utf8Valid tok = true := by
  rcases (xsrfFromCookie_eq_some_iff v tok).mp h with ⟨-, r, -, hdec⟩
  exact (decode_eq hdec).2

theorem new_eq_ok_iff (headers : List (List Nat)) (s : Emailnator) :
    Emailnator.new headers = Except.ok s ↔
      List.findSome? xsrfFromCookie headers = some s.xsrf := by
  unfold Emailnator.new
  rcases hx : List.findSome? xsrfFromCookie headers with _ | tok
  · show Except.error Error.rateLimited = Except.ok s ↔ (none : Option (List Nat)) = some s.xsrf
    constructor
    · intro h; cases h
    · intro h; cases h
  · show Except.ok ⟨tok⟩ = Except.ok s ↔ some tok = some s.xsrf
    constructor
    · intro h
      injection h with h1
      subst h1
      rfl
    · intro h
      injection h with h1
      subst h1
      rfl

theorem hasEscape_cons_false {x : Nat} {l : List Nat} (h : hasEscape (x :: l) = false) :
    hasEscape l = false := by
  cases hl : hasEscape l
  · rfl
  · simp only [hasEscape, hl, Bool.or_true] at h
    exact h

theorem decode_binary_eq_self {bs : List Nat} (h : hasEscape bs = false) :
    decode_binary bs = bs := by
  induction bs using decode_binary.induct with
  | case1 => rfl
  | case2 a b rest hi lo hb ha ih =>
    exfalso
    simp [hasEscape, escapeHead, ha, hb] at h
  | case3 a b rest val hb ha ih =>
    have h1 : hasEscape (b :: rest) = false :=
      hasEscape_cons_false (hasEscape_cons_false h)
    simp [decode_binary, ha, hb, ih h1]
  | case4 a b rest ha ih =>
    have h1 : hasEscape (a :: b :: rest) = false := hasEscape_cons_false h
    simp [decode_binary, ha, ih h1]
  | case5 rest hshape =>
    match rest, hshape with
    | [], _ => rfl
    | [x], _ => rfl
    | a :: b :: rs, hshape => exact absurd rfl (fun hh => hshape a b rs hh)
  | case6 c rest hshape hc ih =>
    have h1 : hasEscape rest = false := hasEscape_cons_false h
    have hc37 : ¬ c = 37 := hc
    simp [decode_binary, hc37, ih h1]

/-! ## Claim theorems -/

/-- C1 (counterexample): the claim's matching conditions — the header value
starts with `XSRF-TOKEN=` and its portion up to the first `;` URL-decodes
(here to `a`) — hold for `c1BadHeader`, yet bootstrap fails with
`RateLimited`, because the value contains the non-visible-ASCII byte 128 and
`to_str` rejects it before the prefix is ever examined. -/
theorem new_first_match_cex :
    XSRF_COOKIE_START.isPrefixOf c1BadHeader = true ∧
    urlencoding.decode
        ((c1BadHeader.drop XSRF_COOKIE_START.length).takeWhile
          (fun b => b ≠ XSRF_COOKIE_SEPARATOR)) = some [97] ∧
    Emailnator.new [c1BadHeader] = Except.error Error.rateLimited :=
  ⟨rfl, rfl, rfl⟩

/-- C1 (amended): a Set-Cookie header is matched exactly when its value is
visible-ASCII text (`to_str` succeeds), starts with `XSRF-TOKEN=`, and its
portion up to the first `;` URL-percent-decodes; bootstrap succeeds with the
decoded value of the first such header in header-iteration order, and fails
with `RateLimited` when no header matches. -/
theorem new_first_match :
    (∀ (pre post : List (List Nat)) (v tok : List Nat),
        (∀ u ∈ pre, xsrfFromCookie u = none) →
        xsrfFromCookie v = some tok →
        Emailnator.new (pre ++ v :: post) = Except.ok ⟨tok⟩) ∧
    (∀ headers : List (List Nat),
        (∀ u ∈ headers, xsrfFromCookie u = none) →
        Emailnator.new headers = Except.error Error.rateLimited) ∧
    (∀ v tok : List Nat,
        xsrfFromCookie v = some tok ↔
          header_to_str v = some v ∧
          ∃ r, stripStart XSRF_COOKIE_START v = some r ∧
            urlencoding.decode (r.takeWhile (fun b => b ≠ XSRF_COOKIE_SEPARATOR)) = some tok) := by
  refine ⟨?_, ?_, xsrfFromCookie_eq_some_iff⟩
  · intro pre post v tok hpre hv
    refine (new_eq_ok_iff _ _).mpr ?_
    rw [List.findSome?_append, List.findSome?_eq_none_iff.mpr hpre, Option.none_or,
      List.findSome?_cons, hv]
  · intro headers h
    unfold Emailnator.new
    rw [List.findSome?_eq_none_iff.mpr h]

theorem new_first_match_witness :
    Emailnator.new [[120], asciiBytes "XSRF-TOKEN=a%3D; Path=/"] = Except.ok ⟨[97, 61]⟩ :=
  new_first_match.1 [[120]] [] (asciiBytes "XSRF-TOKEN=a%3D; Path=/") [97, 61]
    (by decide) rfl

/-- C2: whenever the transport answers any of the three operations with HTTP
status 429, the operation fails with `RateLimited` and its effect trace is
exactly the sent request — the body is never read or decoded. -/
theorem ops_429_rate_limited :
    (∀ (kinds : List EmailKind) (count : Nat) (resp : HttpResponse (Option Json)),
        kinds ≠ [] → count ≠ 0 → resp.status = 429 →
        Emailnator.create_emails kinds count resp =
          (Except.error Error.rateLimited, [Event.sent (getEmailPayload kinds count)])) ∧
    (∀ (email : String) (resp : HttpResponse (Option Json)),
        resp.status = 429 →
        Emailnator.fetch_inbox email resp =
          (Except.error Error.rateLimited, [Event.sent (getInboxPayload email)])) ∧
    (∀ (email id : String) (resp : HttpResponse String),
        resp.status = 429 →
        Emailnator.read_message email id resp =
          (Except.error Error.rateLimited, [Event.sent (getMessagePayload email id)])) := by
  refine ⟨?_, ?_, ?_⟩
  · intro kinds count resp hk hc hs
    cases kinds with
    | nil => exact absurd rfl hk
    | cons k ks => simp [Emailnator.create_emails, hc, hs]
  · intro email resp hs
    simp [Emailnator.fetch_inbox, hs]
  · intro email id resp hs
    simp [Emailnator.read_message, hs]

theorem ops_429_rate_limited_witness :
    Emailnator.create_emails [EmailKind.Domain] 1 ⟨429, none⟩ =
      (Except.error Error.rateLimited, [Event.sent (getEmailPayload [EmailKind.Domain] 1)]) ∧
    Emailnator.fetch_inbox "a@x.com" ⟨429, none⟩ =
      (Except.error Error.rateLimited, [Event.sent (getInboxPayload "a@x.com")]) ∧
    Emailnator.read_message "a@x.com" "1" ⟨429, ""⟩ =
      (Except.error Error.rateLimited, [Event.sent (getMessagePayload "a@x.com" "1")]) :=
  ⟨ops_429_rate_limited.1 [EmailKind.Domain] 1 ⟨429, none⟩ (by decide) (by decide) rfl,
   ops_429_rate_limited.2.1 "a@x.com" ⟨429, none⟩ rfl,
   ops_429_rate_limited.2.2 "a@x.com" "1" ⟨429, ""⟩ rfl⟩

/-- C3: `create_emails` with an empty kinds slice fails with `NoEmailKinds`
for every count (zero included) and every transport behaviour, with an empty
effect trace — no request is issued. -/
theorem create_emails_no_email_kinds (count : Nat) (resp : HttpResponse (Option Json)) :
    Emailnator.create_emails [] count resp = (Except.error Error.noEmailKinds, []) := rfl

/-- C4: `create_emails` with a non-empty kinds slice and count zero fails with
`ZeroCount`, with an empty effect trace — no request is issued. -/
theorem create_emails_zero_count (kinds : List EmailKind) (resp : HttpResponse (Option Json))
    (h : kinds ≠ []) :
    Emailnator.create_emails kinds 0 resp = (Except.error Error.zeroCount, []) := by
  cases kinds with
  | nil => exact absurd rfl h
  | cons k ks => rfl

theorem create_emails_zero_count_witness :
    Emailnator.create_emails [EmailKind.Domain] 0 ⟨200, none⟩ =
      (Except.error Error.zeroCount, []) :=
  create_emails_zero_count [EmailKind.Domain] ⟨200, none⟩ (by decide)

/-- C5: on any non-429 response whose body is the JSON object
`{"email": [string, ...]}`, `create_emails` (non-empty kinds, positive count)
returns exactly that sequence of strings in response order. -/
theorem create_emails_ok (kinds : List EmailKind) (count : Nat) (emails : List String)
    (resp : HttpResponse (Option Json))
    (hk : kinds ≠ []) (hc : count ≠ 0) (hs : resp.status ≠ 429)
    (hb : resp.body = some (Json.obj [("email", Json.arr (emails.map Json.str))])) :
    (Emailnator.create_emails kinds count resp).1 = Except.ok emails := by
  cases kinds with
  | nil => exact absurd rfl hk
  | cons k ks =>
    simp [Emailnator.create_emails, hc, hs, hb, decodeGeneratedEmails_obj]

theorem create_emails_ok_witness :
    (Emailnator.create_emails [EmailKind.Domain] 2
        ⟨200, some (Json.obj [("email",
          Json.arr [Json.str "a@x.com", Json.str "b@x.com"])])⟩).1 =
      Except.ok ["a@x.com", "b@x.com"] :=
  create_emails_ok [EmailKind.Domain] 2 ["a@x.com", "b@x.com"]
    ⟨200, some (Json.obj [("email", Json.arr [Json.str "a@x.com", Json.str "b@x.com"])])⟩
    (by decide) (by decide) (by decide) rfl

/-- C6: on any non-429 response whose body is the JSON object
`{"messageData": [...]}` whose entries carry the string fields `messageID`,
`from` and `subject`, `fetch_inbox` returns an `Inbox` with one `MailHeader`
per entry, in response order, with `id`, `from` and `subject` taken from those
fields. -/
theorem fetch_inbox_ok (email : String) (entries : List MailHeader)
    (resp : HttpResponse (Option Json)) (hs : resp.status ≠ 429)
    (hb : resp.body =
      some (Json.obj [("messageData", Json.arr (entries.map mkMailHeaderJson))])) :
    (Emailnator.fetch_inbox email resp).1 = Except.ok ⟨entries⟩ := by
  simp [Emailnator.fetch_inbox, hs, hb, decodeInbox_obj]

theorem fetch_inbox_ok_witness :
    (Emailnator.fetch_inbox "a@x.com"
        ⟨200, some (Json.obj [("messageData", Json.arr [Json.obj
          [("messageID", Json.str "1"), ("from", Json.str "s@x"),
           ("subject", Json.str "hi")]])])⟩).1 =
      Except.ok ⟨[⟨"1", "s@x", "hi"⟩]⟩ :=
  fetch_inbox_ok "a@x.com" [⟨"1", "s@x", "hi"⟩]
    ⟨200, some (Json.obj [("messageData", Json.arr [Json.obj
      [("messageID", Json.str "1"), ("from", Json.str "s@x"),
       ("subject", Json.str "hi")]])])⟩
    (by decide) rfl

/-- C7: on any non-429 response, `read_message` returns the response body as
raw decoded text, exactly as received and with no JSON parsing — the result is
the body verbatim. -/
theorem read_message_raw (email id : String) (resp : HttpResponse String)
    (hs : resp.status ≠ 429) :
    Emailnator.read_message email id resp =
      (Except.ok resp.body, [Event.sent (getMessagePayload email id), Event.readBody]) := by
  simp [Emailnator.read_message, hs]

theorem read_message_raw_witness :
    Emailnator.read_message "a@x.com" "1" ⟨200, "<html>body</html>"⟩ =
      (Except.ok "<html>body</html>",
       [Event.sent (getMessagePayload "a@x.com" "1"), Event.readBody]) :=
  read_message_raw "a@x.com" "1" ⟨200, "<html>body</html>"⟩ (by decide)

/-- C8 (counterexample): bootstrap succeeds on the sole header `XSRF-TOKEN=`
and stores the empty session token — a successful bootstrap with an empty
`xsrf`, contradicting the claimed non-emptiness invariant. -/
theorem new_token_nonempty_cex :
    Emailnator.new [XSRF_COOKIE_START] = Except.ok ⟨[]⟩ := rfl

/-- C8 (amended): the token stored by every successful bootstrap is the
URL-decoded value extracted from one of the presented Set-Cookie headers, and
is valid UTF-8 (as `urlencoding::decode` guarantees); it may be empty. -/
theorem new_token_from_cookie (headers : List (List Nat)) (s : Emailnator)
    (h : Emailnator.new headers = Except.ok s) :
    (∃ v ∈ headers, xsrfFromCookie v = some s.xsrf) ∧ utf8Valid s.xsrf = true := by
  have hx := (new_eq_ok_iff headers s).mp h
  refine ⟨List.exists_of_findSome?_eq_some hx, ?_⟩
  rcases List.exists_of_findSome?_eq_some hx with ⟨v, -, hv⟩
  exact utf8Valid_of_xsrfFromCookie hv

theorem new_token_from_cookie_witness :
    (∃ v ∈ [asciiBytes "XSRF-TOKEN=t"],
        xsrfFromCookie v = some (Emailnator.mk [116]).xsrf) ∧
    utf8Valid (Emailnator.mk [116]).xsrf = true :=
  new_token_from_cookie [asciiBytes "XSRF-TOKEN=t"] ⟨[116]⟩ rfl

/-- C9: the cookie-prefix-and-decode logic applied to a header value with
percent-encoded characters yields the fully decoded string (here
`XSRF-TOKEN=abc%3D%3D; Path=/` yields `abc==`), and URL-decoding is idempotent
on any already-decoded string that contains no further percent escapes. -/
theorem decode_round_trip :
    xsrfFromCookie (asciiBytes "XSRF-TOKEN=abc%3D%3D; Path=/") =
      some (asciiBytes "abc==") ∧
    (∀ bs t : List Nat, urlencoding.decode bs = some t → hasEscape t = false →
      urlencoding.decode t = some t) := by
  refine ⟨rfl, ?_⟩
  intro bs t h hesc
  obtain ⟨hd, hv⟩ := decode_eq h
  simp only [urlencoding.decode]
  rw [decode_binary_eq_self hesc, if_pos hv]

theorem decode_round_trip_witness :
    urlencoding.decode (asciiBytes "a%25") = some [97, 37] ∧
    urlencoding.decode [97, 37] = some [97, 37] :=
  ⟨rfl, decode_round_trip.2 (asciiBytes "a%25") [97, 37] rfl rfl⟩

/-- C10: a Set-Cookie header whose value is not visible-ASCII text (`to_str`
fails) is silently skipped by bootstrap: it never causes failure by itself and
the search continues with the remaining headers in iteration order. -/
theorem new_skips_invalid_header (pre post : List (List Nat)) (v : List Nat)
    (h : header_to_str v = none) :
    Emailnator.new (pre ++ v :: post) = Emailnator.new (pre ++ post) := by
  have hv : xsrfFromCookie v = none := by
    unfold xsrfFromCookie
    rw [h]
    rfl
  unfold Emailnator.new
  rw [List.findSome?_append, List.findSome?_append, List.findSome?_cons, hv]

theorem new_skips_invalid_header_witness :
    Emailnator.new ([] ++ [200] :: [asciiBytes "XSRF-TOKEN=t"]) =
      Emailnator.new ([] ++ [asciiBytes "XSRF-TOKEN=t"]) :=
  new_skips_invalid_header [] [asciiBytes "XSRF-TOKEN=t"] [200] rfl
